import Mathlib

/-!
Verification of the China-CloudFront-SSL-Plugin provisioning stack
(`src/cdk/lib/china-cloudfront-ssl-plugin-stack.ts`).

The source is a declarative CDK stack: it declares CloudFormation
parameters with their validation constraints, several Lambda functions
with environments / timeouts, IAM policy statements, EventBridge rules
(one pattern-triggered, one scheduled), Lambda invoke permissions, and a
REST API with its routes.  We embed the synthesized configuration as a
Lean record, built by `mkStack` from the deploy-time parameter values
(`StackConfig`) and the deploy-time attributes supplied by the cloud
(`AwsEnv`: region, account, generated resource names and ARNs).
Parameter validation (minLength / allowedPattern / minValue / maxValue)
is embedded as executable acceptance predicates following CloudFormation
semantics (an allowedPattern must match the whole value).
-/

/-- Deploy-time values of the stack's three CloudFormation parameters
(lines 34-53 of the stack). -/
structure StackConfig where
  domainName : String
  emailAddress : String
  renewIntervalDays : Int
deriving DecidableEq

/-- Deploy-time attributes resolved by the cloud: pseudo parameters
(`Aws.REGION`, `Aws.ACCOUNT_ID`, `Aws.STACK_NAME`, `Aws.STACK_ID`) and the
generated names/ARNs of resources the stack references
(`cert_bucket.bucketName`, `cert_bucket.bucketArn`, `cert_topic.topicArn`,
`cfn_created_rule.ruleArn`, `scheduled_event_rule.ruleArn`,
`mgmt_rest_api.restApiId`). -/
structure AwsEnv where
  region : String
  accountId : String
  stackName : String
  stackId : String
  certBucketName : String
  certBucketArn : String
  certTopicArn : String
  cfnCreatedRuleArn : String
  scheduledRuleArn : String
  restApiId : String
deriving DecidableEq

/-- A Lambda function as declared by the stack: handler, runtime,
description, environment variables, memory size and timeout. -/
structure LambdaFunction where
  handler : String
  runtime : String
  description : String
  environment : List (String × String)
  memorySize : Nat
  timeoutSeconds : Nat
deriving DecidableEq

/-- Effect of an IAM policy statement. -/
inductive Effect where
  | allow
  | deny
deriving DecidableEq

/-- An IAM policy statement (`iam.PolicyStatement`). -/
structure PolicyStatement where
  effect : Effect
  actions : List String
  resources : List String
deriving DecidableEq

/-- The CloudFormation stack-status event pattern used by
`cfn_created_rule` (lines 157-166): lists of accepted sources,
detail-types, stack ids and statuses. -/
structure StackEventPattern where
  sources : List String
  detailTypes : List String
  stackIds : List String
  statuses : List String
deriving DecidableEq

/-- An EventBridge schedule expression; the stack only uses
`Schedule.rate(Duration.days(n))`. -/
inductive EventSchedule where
  | rateDays (n : Int)
deriving DecidableEq

/-- An EventBridge rule: description, enabled flag, optional event
pattern, optional schedule, and target function ids. -/
structure EventRule where
  description : String
  enabled : Bool
  eventPattern : Option StackEventPattern
  schedule : Option EventSchedule
  targets : List String
deriving DecidableEq

/-- A Lambda resource-based invoke permission (`addPermission`). -/
structure LambdaPermission where
  permissionId : String
  action : String
  principal : String
  sourceArn : String
deriving DecidableEq

/-- The backend integration of a REST API method. -/
inductive Integration where
  | lambdaFn (functionId : String)
  | mock
deriving DecidableEq

/-- One REST API route: resource path, HTTP method, integration. -/
structure ApiRoute where
  resourcePath : String
  httpMethod : String
  integration : Integration
deriving DecidableEq

/-- The synthesized stack: every construct the claims are about. -/
structure SslPluginStack where
  certbotFunction : LambdaFunction
  certbotPolicies : List PolicyStatement
  cfnCreatedRule : EventRule
  scheduledRule : EventRule
  certbotPermissions : List LambdaPermission
  apiDocFunction : LambdaFunction
  deleteCertFunction : LambdaFunction
  listCertFunction : LambdaFunction
  deleteCertPolicies : List PolicyStatement
  listCertPolicies : List PolicyStatement
  apiRoutes : List ApiRoute
deriving DecidableEq

/-- The management API invoke URL (line 221):
`https://${restApiId}.execute-api.${REGION}.amazonaws.com.cn/prod`. -/
def invokeUrl (env : AwsEnv) : String :=
  "https://" ++ env.restApiId ++ ".execute-api." ++ env.region ++
    ".amazonaws.com.cn/prod"

/-- Environment of `certbot_lambda_fn` (lines 104-113), plus the
`API_EXPLORER` variable added by `addEnvironment` at line 328. -/
def mkCertbotEnvironment (cfg : StackConfig) (env : AwsEnv) :
    List (String × String) :=
  [("CERTBOT_BUCKET", env.certBucketName),
   ("DOMAINS_LIST", cfg.domainName),
   ("DOMAINS_EMAIL", cfg.emailAddress),
   ("STACK_NAME", env.stackName),
   ("REGION", env.region),
   ("TOPIC_ARN", env.certTopicArn),
   ("MAX_DIST_ITEMS", "200"),
   ("DIST_PAGE_SIZE", "20"),
   ("API_EXPLORER", invokeUrl env ++ "/api-explorer/")]

/-- The whole stack, as synthesized from the constructor body. -/
def mkStack (cfg : StackConfig) (env : AwsEnv) : SslPluginStack :=
  { certbotFunction :=
      { handler := "app.handler"
        runtime := "python3.10"
        description := "Core Function for issuing certificates"
        environment := mkCertbotEnvironment cfg env
        memorySize := 256
        timeoutSeconds := 900 }
    certbotPolicies :=
      [{ effect := Effect.allow
         actions :=
           ["cloudfront:GetDistribution",
            "cloudfront:ListDistributions",
            "cloudfront:UpdateDistribution",
            "cloudfront:GetDistributionConfig",
            "route53:GetChange",
            "iam:ListServerCertificates",
            "route53:ListHostedZones"]
         resources := ["*"] },
       { effect := Effect.allow
         actions :=
           ["iam:GetServerCertificate",
            "iam:UpdateServerCertificate",
            "iam:ListServerCertificateTags",
            "iam:DeleteServerCertificate",
            "iam:TagServerCertificate",
            "route53:ChangeResourceRecordSets",
            "iam:UntagServerCertificate",
            "iam:UploadServerCertificate",
            "s3:ListBucket",
            "s3:PutObject",
            "s3:GetObject",
            "sns:Publish"]
         resources :=
           ["arn:aws-cn:iam::" ++ env.accountId ++ ":server-certificate/*",
            "arn:aws-cn:route53:::hostedzone/*",
            env.certBucketArn,
            env.certBucketArn ++ "/*",
            env.certTopicArn] }]
    cfnCreatedRule :=
      { description := "Trigger lambda function after stack created"
        enabled := true
        eventPattern := some
          { sources := ["aws.cloudformation"]
            detailTypes := ["CloudFormation Stack Status Change"]
            stackIds := [env.stackId]
            statuses := ["CREATE_COMPLETE", "UPDATE_COMPLETE"] }
        schedule := none
        targets := ["CertBotFunction"] }
    scheduledRule :=
      { description := "Automatically trigger cert lambda function every " ++
          toString cfg.renewIntervalDays ++ " days"
        enabled := true
        eventPattern := none
        schedule := some (EventSchedule.rateDays cfg.renewIntervalDays)
        targets := ["CertBotFunction"] }
    certbotPermissions :=
      [{ permissionId := "CertCfnCreatedEventInvokeLambda"
         action := "lambda:InvokeFunction"
         principal := "events.amazonaws.com"
         sourceArn := env.cfnCreatedRuleArn },
       { permissionId := "ScheduledEventsInvokeLambda"
         action := "lambda:InvokeFunction"
         principal := "events.amazonaws.com"
         sourceArn := env.cfnCreatedRuleArn }]
    apiDocFunction :=
      { handler := "app.handler"
        runtime := "nodejs18.x"
        description := "API Explorer for management certificates"
        environment := [("SWAGGER_SPEC_URL", invokeUrl env)]
        memorySize := 128
        timeoutSeconds := 20 }
    deleteCertFunction :=
      { handler := "app.handler"
        runtime := "python3.9"
        description := "API for delete IAM certificates"
        environment := []
        memorySize := 128
        timeoutSeconds := 20 }
    listCertFunction :=
      { handler := "app.handler"
        runtime := "python3.9"
        description := "API for list IAM certificates"
        environment := []
        memorySize := 128
        timeoutSeconds := 20 }
    deleteCertPolicies :=
      [{ effect := Effect.allow
         actions := ["iam:DeleteServerCertificate"]
         resources := ["*"] }]
    listCertPolicies :=
      [{ effect := Effect.allow
         actions := ["iam:ListServerCertificates"]
         resources := ["*"] }]
    apiRoutes :=
      [{ resourcePath := "/", httpMethod := "OPTIONS"
         integration := Integration.mock },
       { resourcePath := "/api-explorer", httpMethod := "OPTIONS"
         integration := Integration.mock },
       { resourcePath := "/api-explorer/\x7bproxy+\x7d", httpMethod := "OPTIONS"
         integration := Integration.mock },
       { resourcePath := "/api-explorer/\x7bproxy+\x7d", httpMethod := "ANY"
         integration := Integration.lambdaFn "APIExplorerFunction" },
       { resourcePath := "/api-explorer", httpMethod := "GET"
         integration := Integration.lambdaFn "APIExplorerFunction" },
       { resourcePath := "/delete-ssl-cert", httpMethod := "OPTIONS"
         integration := Integration.mock },
       { resourcePath := "/delete-ssl-cert", httpMethod := "POST"
         integration := Integration.lambdaFn "DeleteCertFunction" },
       { resourcePath := "/list-ssl-cert", httpMethod := "OPTIONS"
         integration := Integration.mock },
       { resourcePath := "/list-ssl-cert", httpMethod := "GET"
         integration := Integration.lambdaFn "ListCertFunction" }] }

/-- Look up an environment variable in a Lambda environment. -/
def lookupEnv (e : List (String × String)) (k : String) : Option String :=
  (e.find? (fun kv => kv.1 = k)).map (fun kv => kv.2)

/-- A concrete deploy-time configuration used for witnesses. -/
def cfg0 : StackConfig :=
  { domainName := "www.example.cn,example.cn"
    emailAddress := "user@example.cn"
    renewIntervalDays := 80 }

/-- A concrete cloud environment used for witnesses. -/
def env0 : AwsEnv :=
  { region := "cn-north-1"
    accountId := "123456789012"
    stackName := "ssl-plugin"
    stackId := "arn:aws-cn:cloudformation:cn-north-1:123456789012:stack/ssl-plugin/guid"
    certBucketName := "ssl-plugin-certbucket"
    certBucketArn := "arn:aws-cn:s3:::ssl-plugin-certbucket"
    certTopicArn := "arn:aws-cn:sns:cn-north-1:123456789012:Topic"
    cfnCreatedRuleArn := "arn:aws-cn:events:cn-north-1:123456789012:rule/CertCfnCreatedRule"
    scheduledRuleArn := "arn:aws-cn:events:cn-north-1:123456789012:rule/CertScheduledRule"
    restApiId := "abc123" }

/-!
## Parameter validation

CloudFormation validates parameter constraints at configuration
(stack-creation) time: a `String` parameter must satisfy `minLength` and,
when present, its `allowedPattern` must match the entire value; a
`Number` parameter must satisfy `minValue`/`maxValue`.  We embed each
parameter's acceptance as an executable predicate.  The email pattern
(line 44) is `\b[\w.%+-]+@[\w.-]+\.[a-zA-Z]{2,6}\b`, anchored to the
whole value; with full anchoring the leading `\b` requires the first
character to be a word character and the trailing `\b` is discharged by
the final letter.
-/

/-- `\w`: letters, digits, underscore. -/
def isWordChar (c : Char) : Bool :=
  c.isAlpha || c.isDigit || c = '_'

/-- `[\w.%+-]`: the character class of the pattern's local part. -/
def isLocalChar (c : Char) : Bool :=
  isWordChar c || c = '.' || c = '%' || c = '+' || c = '-'

/-- `[\w.-]`: the character class of the pattern's host part. -/
def isHostChar (c : Char) : Bool :=
  isWordChar c || c = '.' || c = '-'

/-- Split a character list at every occurrence of `sep`; always returns a
nonempty list of (possibly empty) chunks. -/
def splitOnChar (sep : Char) : List Char → List (List Char)
  | [] => [[]]
  | c :: rest =>
    match splitOnChar sep rest with
    | [] => if c = sep then [[], []] else [[c]]
    | h :: t => if c = sep then [] :: h :: t else (c :: h) :: t

/-- Whole-value match of the email `allowedPattern`
`\b[\w.%+-]+@[\w.-]+\.[a-zA-Z]{2,6}\b` (line 44).  The local and host
character classes exclude `@`, so a match forces exactly one `@`; the
top-level-domain piece `[a-zA-Z]{2,6}` contains no dot, so the `\.` of
the pattern is the last dot of the host part. -/
def emailPatternMatch (s : String) : Bool :=
  match splitOnChar '@' s.toList with
  | [localPart, hostPart] =>
    (match localPart with
     | [] => false
     | c :: _ => isWordChar c)
    && localPart.all isLocalChar
    && (match (splitOnChar '.' hostPart).reverse with
        | tld :: b :: bs =>
          let host := List.intercalate ['.'] ((b :: bs).reverse)
          decide (2 ≤ tld.length) && decide (tld.length ≤ 6)
            && tld.all Char.isAlpha
            && !host.isEmpty && host.all isHostChar
        | _ => false)
  | _ => false

/-- Acceptance of the `domainName` parameter (lines 34-38):
type String, `minLength: 1`, no pattern. -/
def domainNameAccepts (s : String) : Bool :=
  decide (1 ≤ s.length)

/-- Acceptance of the `emailAddress` parameter (lines 40-45):
type String, `minLength: 1`, `allowedPattern` as above. -/
def emailAddressAccepts (s : String) : Bool :=
  decide (1 ≤ s.length) && emailPatternMatch s

/-- Acceptance of the `renewIntervalDays` parameter (lines 47-53):
type Number, `minValue: 1`, `maxValue: 89`. -/
def renewIntervalDaysAccepts (v : Int) : Bool :=
  decide (1 ≤ v) && decide (v ≤ 89)

/-- A deploy-time configuration is accepted exactly when every parameter
passes its declared constraints; CloudFormation checks this at
configuration time, before any resource (hence any run) exists. -/
def stackConfigAccepted (cfg : StackConfig) : Bool :=
  domainNameAccepts cfg.domainName
    && emailAddressAccepts cfg.emailAddress
    && renewIntervalDaysAccepts cfg.renewIntervalDays

/-- Follows the spec's words, not the source (§3 DomainSet: "ordered
sequence of domain name strings", created from the comma-separated
configuration input; §4.1: an invalid domain list is a configuration
error): a domain-list string is valid only if every comma-separated
entry is nonempty. -/
def specValidDomainList (s : String) : Bool :=
  (splitOnChar ',' s.toList).all (fun d => !d.isEmpty)

/-!
## Event matching and IAM resource matching
-/

/-- A CloudFormation stack-status-change event as delivered on the event
bus, restricted to the fields the rule's pattern constrains. -/
structure StackEvent where
  source : String
  detailType : String
  stackId : String
  status : String
deriving DecidableEq

/-- EventBridge pattern semantics: each constrained field must equal one
of the listed values; constrained fields are combined conjunctively. -/
def eventPatternMatches (p : StackEventPattern) (e : StackEvent) : Bool :=
  p.sources.any (fun x => x = e.source)
    && p.detailTypes.any (fun x => x = e.detailType)
    && p.stackIds.any (fun x => x = e.stackId)
    && p.statuses.any (fun x => x = e.status)

/-- A rule fires on an event when it is enabled and its pattern matches
(a schedule-only rule never pattern-matches an event). -/
def eventRuleMatches (r : EventRule) (e : StackEvent) : Bool :=
  r.enabled &&
    match r.eventPattern with
    | some p => eventPatternMatches p e
    | none => false

/-- IAM wildcard matching on characters: `*` matches any run of
characters, `?` a single character, anything else itself. -/
def globMatch : List Char → List Char → Bool
  | [], [] => true
  | [], _ :: _ => false
  | '*' :: ps, [] => globMatch ps []
  | '*' :: ps, c :: s => globMatch ps (c :: s) || globMatch ('*' :: ps) s
  | _ :: _, [] => false
  | q :: ps, c :: s => (q = '?' || q = c) && globMatch ps s
termination_by p s => (p.length, s.length)

/-- IAM resource matching: the statement's resource pattern against a
concrete resource ARN. -/
def iamResourceMatches (pattern arn : String) : Bool :=
  globMatch pattern.toList arn.toList

/-- The pattern `*` matches every character list. -/
theorem globMatch_star_all (s : List Char) : globMatch ['*'] s = true := by
  induction s with
  | nil => simp [globMatch]
  | cons c s ih => simp [globMatch, ih]

/-- Routes of the management API whose integration is one of the two
certificate-management functions. -/
def certManagementRoutes (s : SslPluginStack) : List ApiRoute :=
  s.apiRoutes.filter (fun r =>
    match r.integration with
    | Integration.lambdaFn fid =>
        fid = "DeleteCertFunction" || fid = "ListCertFunction"
    | Integration.mock => false)

/-- The mutating IAM server-certificate actions that appear anywhere in
this stack's policy statements (lines 138-145, 279). -/
def mutatingIamActions : List String :=
  ["iam:UploadServerCertificate",
   "iam:UpdateServerCertificate",
   "iam:DeleteServerCertificate",
   "iam:TagServerCertificate",
   "iam:UntagServerCertificate"]

/-!
## Claims
-/

/-- C1 counterexample: the claim says the certificate-issuance function
receives the renewIntervalDays value as part of its input.  At a
concrete accepted deployment (interval 80) no entry of the function's
environment carries the value "80" — the environment holds the domain
list and email but nothing derived from the renew interval, so the
claim is false as stated. -/
theorem certbot_missing_renew_interval_cex :
    ((mkStack cfg0 env0).certbotFunction.environment.any
        (fun kv => kv.2 = toString cfg0.renewIntervalDays)) = false ∧
    lookupEnv (mkStack cfg0 env0).certbotFunction.environment "DOMAINS_LIST"
      = some cfg0.domainName ∧
    lookupEnv (mkStack cfg0 env0).certbotFunction.environment "DOMAINS_EMAIL"
      = some cfg0.emailAddress :=
  ⟨rfl, rfl, rfl⟩

/-- C1 (amended): the certificate-issuance function receives the domain
list (DOMAINS_LIST) and notification address (DOMAINS_EMAIL) in its
environment, but not the renewIntervalDays value: its environment is
entirely independent of the renew interval, which only shapes the
schedule rule's rate. -/
theorem certbot_input_contract (cfg : StackConfig) (env : AwsEnv) (d : Int) :
    lookupEnv (mkStack cfg env).certbotFunction.environment "DOMAINS_LIST"
      = some cfg.domainName ∧
    lookupEnv (mkStack cfg env).certbotFunction.environment "DOMAINS_EMAIL"
      = some cfg.emailAddress ∧
    (mkStack { cfg with renewIntervalDays := d } env).certbotFunction.environment
      = (mkStack cfg env).certbotFunction.environment ∧
    (mkStack cfg env).scheduledRule.schedule
      = some (EventSchedule.rateDays cfg.renewIntervalDays) :=
  ⟨rfl, rfl, rfl, rfl⟩

/-- C2: a value is accepted by the renewIntervalDays parameter
declaration (minValue 1, maxValue 89, checked by CloudFormation at
configuration time, before any resource or run exists) exactly when it
lies in the inclusive range 1..89. -/
theorem renew_interval_accepted_iff_in_range (v : Int) :
    renewIntervalDaysAccepts v = true ↔ (1 ≤ v ∧ v ≤ 89) := by
  simp [renewIntervalDaysAccepts]

/-- C3 counterexample: the claim says the lifecycle rule's pattern
matches only the completion of initial provisioning and never fires for
a later stack event.  But the rule's pattern also matches a stack event
with status UPDATE_COMPLETE — the completion of a later stack update,
not of initial provisioning — so the rule fires again after every
successful update. -/
theorem cfn_rule_matches_update_cex :
    eventRuleMatches (mkStack cfg0 env0).cfnCreatedRule
      { source := "aws.cloudformation"
        detailType := "CloudFormation Stack Status Change"
        stackId := env0.stackId
        status := "UPDATE_COMPLETE" } = true ∧
    ("UPDATE_COMPLETE" : String) ≠ "CREATE_COMPLETE" :=
  ⟨rfl, by decide⟩

/-- C3 (amended): the lifecycle rule fires on exactly the
stack-status-change events for this stack whose status is
CREATE_COMPLETE — completion of initial provisioning — or
UPDATE_COMPLETE — completion of any later stack update. -/
theorem cfn_rule_fires_iff (cfg : StackConfig) (env : AwsEnv) (e : StackEvent) :
    eventRuleMatches (mkStack cfg env).cfnCreatedRule e = true ↔
      (e.source = "aws.cloudformation" ∧
       e.detailType = "CloudFormation Stack Status Change" ∧
       e.stackId = env.stackId ∧
       (e.status = "CREATE_COMPLETE" ∨ e.status = "UPDATE_COMPLETE")) := by
  have hrule : eventRuleMatches (mkStack cfg env).cfnCreatedRule e
      = eventPatternMatches
          { sources := ["aws.cloudformation"]
            detailTypes := ["CloudFormation Stack Status Change"]
            stackIds := [env.stackId]
            statuses := ["CREATE_COMPLETE", "UPDATE_COMPLETE"] } e := rfl
  rw [hrule]
  simp only [eventPatternMatches, List.any_cons, List.any_nil, Bool.or_false,
    Bool.and_eq_true, Bool.or_eq_true, decide_eq_true_eq]
  constructor
  · rintro ⟨⟨⟨h1, h2⟩, h3⟩, h4⟩
    exact ⟨h1.symm, h2.symm, h3.symm, h4.imp Eq.symm Eq.symm⟩
  · rintro ⟨h1, h2, h3, h4⟩
    exact ⟨⟨⟨h1.symm, h2.symm⟩, h3.symm⟩, h4.imp Eq.symm Eq.symm⟩

/-- C4: for every deployment, the schedule rule is enabled, fires at a
fixed rate of renewIntervalDays days — the configured parameter itself,
for every value, hence not a constant — and targets the
certificate-issuance function. -/
theorem scheduled_rule_rate_is_parameter (cfg : StackConfig) (env : AwsEnv) :
    (mkStack cfg env).scheduledRule.schedule
      = some (EventSchedule.rateDays cfg.renewIntervalDays) ∧
    (mkStack cfg env).scheduledRule.targets = ["CertBotFunction"] ∧
    (mkStack cfg env).scheduledRule.enabled = true :=
  ⟨rfl, rfl, rfl⟩

/-- C5: the issuance function's timeout is 900 seconds, which is 15
minutes, and its environment carries the pagination limits
MAX_DIST_ITEMS = 200 and DIST_PAGE_SIZE = 20. -/
theorem certbot_time_and_pagination_limits (cfg : StackConfig) (env : AwsEnv) :
    (mkStack cfg env).certbotFunction.timeoutSeconds = 900 ∧
    900 = 15 * 60 ∧
    lookupEnv (mkStack cfg env).certbotFunction.environment "MAX_DIST_ITEMS"
      = some "200" ∧
    lookupEnv (mkStack cfg env).certbotFunction.environment "DIST_PAGE_SIZE"
      = some "20" :=
  ⟨rfl, rfl, rfl, rfl⟩

/-- C6: among all routes of the management API, those integrated with a
certificate-management function are exactly two: POST on
/delete-ssl-cert to the certificate-deleting function and GET on
/list-ssl-cert to the certificate-listing function. -/
theorem cert_management_routes_exact (cfg : StackConfig) (env : AwsEnv) :
    certManagementRoutes (mkStack cfg env) =
      [{ resourcePath := "/delete-ssl-cert", httpMethod := "POST"
         integration := Integration.lambdaFn "DeleteCertFunction" },
       { resourcePath := "/list-ssl-cert", httpMethod := "GET"
         integration := Integration.lambdaFn "ListCertFunction" }] :=
  rfl

/-- C7: the policy granted to the certificate-listing function is a
single allow statement whose only action is iam:ListServerCertificates,
and none of its actions is a mutating IAM certificate action. -/
theorem list_policy_single_read_action (cfg : StackConfig) (env : AwsEnv) :
    (mkStack cfg env).listCertPolicies =
      [{ effect := Effect.allow
         actions := ["iam:ListServerCertificates"]
         resources := ["*"] }] ∧
    ((mkStack cfg env).listCertPolicies.all (fun st =>
        st.actions.all (fun a => !(mutatingIamActions.contains a)))) = true :=
  ⟨rfl, rfl⟩

/-- C8 counterexample: the claim says any configuration accepted by the
parameter declarations has a valid domain list.  The configuration with
domain list ",", a well-formed email and interval 80 is accepted (the
domain parameter only requires minLength 1), yet "," is not a valid
comma-separated domain list: both of its entries are empty. -/
theorem config_accepts_invalid_domain_list_cex :
    stackConfigAccepted
      { domainName := ","
        emailAddress := "a@b.cn"
        renewIntervalDays := 80 } = true ∧
    specValidDomainList "," = false :=
  ⟨rfl, rfl⟩

/-- C8 (amended): every configuration accepted by the parameter
declarations has a renew interval within 1..89 and an email matching the
declared pattern, but the domain list is only guaranteed to be a
nonempty string — domain-list well-formedness beyond nonemptiness is not
validated at configuration time. -/
theorem config_accepted_guarantees (cfg : StackConfig)
    (h : stackConfigAccepted cfg = true) :
    1 ≤ cfg.renewIntervalDays ∧ cfg.renewIntervalDays ≤ 89 ∧
    emailPatternMatch cfg.emailAddress = true ∧
    1 ≤ cfg.domainName.length := by
  simp [stackConfigAccepted, domainNameAccepts, emailAddressAccepts,
    renewIntervalDaysAccepts, Bool.and_eq_true, decide_eq_true_eq] at h
  tauto

/-- Witness for C8 (amended) at the concrete configuration `cfg0`. -/
theorem config_accepted_guarantees_witness :
    1 ≤ cfg0.renewIntervalDays ∧ cfg0.renewIntervalDays ≤ 89 ∧
    emailPatternMatch cfg0.emailAddress = true ∧
    1 ≤ cfg0.domainName.length :=
  config_accepted_guarantees cfg0 rfl

/-- C9: both explicit invoke permissions granted to the events service
principal (CertCfnCreatedEventInvokeLambda and
ScheduledEventsInvokeLambda) name the lifecycle rule's ARN as their
sourceArn, and — the two rule ARNs being distinct — no explicit
permission names the scheduled rule's ARN as a source. -/
theorem invoke_permissions_source_arn (cfg : StackConfig) (env : AwsEnv)
    (h : env.scheduledRuleArn ≠ env.cfnCreatedRuleArn) :
    (mkStack cfg env).certbotPermissions =
      [{ permissionId := "CertCfnCreatedEventInvokeLambda"
         action := "lambda:InvokeFunction"
         principal := "events.amazonaws.com"
         sourceArn := env.cfnCreatedRuleArn },
       { permissionId := "ScheduledEventsInvokeLambda"
         action := "lambda:InvokeFunction"
         principal := "events.amazonaws.com"
         sourceArn := env.cfnCreatedRuleArn }] ∧
    env.scheduledRuleArn ∉
      ((mkStack cfg env).certbotPermissions.map
        (fun p => p.sourceArn)) := by
  refine ⟨rfl, ?_⟩
  simp [mkStack, h]

/-- Witness for C9 at the concrete deployment `cfg0` / `env0`, whose two
rule ARNs are distinct. -/
theorem invoke_permissions_source_arn_witness :
    (mkStack cfg0 env0).certbotPermissions =
      [{ permissionId := "CertCfnCreatedEventInvokeLambda"
         action := "lambda:InvokeFunction"
         principal := "events.amazonaws.com"
         sourceArn := env0.cfnCreatedRuleArn },
       { permissionId := "ScheduledEventsInvokeLambda"
         action := "lambda:InvokeFunction"
         principal := "events.amazonaws.com"
         sourceArn := env0.cfnCreatedRuleArn }] ∧
    env0.scheduledRuleArn ∉
      ((mkStack cfg0 env0).certbotPermissions.map
        (fun p => p.sourceArn)) :=
  invoke_permissions_source_arn cfg0 env0 (by decide)

/-- C10: the delete function's policy is a single allow statement for
iam:DeleteServerCertificate on resource "*", and under IAM wildcard
semantics "*" matches every resource ARN — so the delete endpoint is
authorized against any server certificate in the account, not only
those this stack issued. -/
theorem delete_policy_account_wide (cfg : StackConfig) (env : AwsEnv)
    (arn : String) :
    (mkStack cfg env).deleteCertPolicies =
      [{ effect := Effect.allow
         actions := ["iam:DeleteServerCertificate"]
         resources := ["*"] }] ∧
    iamResourceMatches "*" arn = true := by
  refine ⟨rfl, ?_⟩
  show globMatch "*".toList arn.toList = true
  have h : "*".toList = ['*'] := rfl
  rw [h]
  exact globMatch_star_all arn.toList
